import Mathlib

/-!
Verification of the Audit, Contract and Parity Engine of the
Hypercap-CC-NLP repository, as a shallow embedding in Lean 4.

The Python sources embedded here are
`src/hypercap_cc_nlp/pipeline_audit.py` and
`src/hypercap_cc_nlp/pipeline_parity.py`.  Python `dict`s are embedded as
association lists (`List (String × _)`, first binding wins, mirroring
insertion order); `float` metric values and thresholds are embedded as `ℚ`
(all severity classification in the source is ordering of finite decimal
values, which `ℚ` represents exactly); functions that raise are embedded
as `Except`-valued functions.
-/

set_option maxHeartbeats 1000000

deriving instance DecidableEq for Except

namespace HypercapAudit

/-- `DriftRule` from `pipeline_audit.py`: threshold rule for a metric
drift check. -/
structure DriftRule where
  compare : String
  warn : ℚ
  fail : ℚ
  deriving Repr, DecidableEq

/-- `DRIFT_RULES` from `pipeline_audit.py`. -/
def DRIFT_RULES : List (String × DriftRule) :=
  [("cohort_rows", ⟨"relative", 0.05, 0.10⟩),
   ("classifier_rows", ⟨"relative", 0.05, 0.10⟩),
   ("icu_link_rate", ⟨"absolute", 0.04, 0.08⟩),
   ("pct_any_gas_0_6h", ⟨"absolute", 0.04, 0.08⟩),
   ("pct_any_gas_0_24h", ⟨"absolute", 0.04, 0.08⟩),
   ("gas_source_other_rate", ⟨"absolute", 0.04, 0.08⟩),
   ("first_other_pco2_pct_eq_160_poc", ⟨"absolute", 0.05, 0.10⟩)]

/-- One row of the data frame returned by `compute_metric_drift`. -/
structure DriftRow where
  metric : String
  current_value : ℚ
  baseline_value : ℚ
  delta : ℚ
  abs_delta : ℚ
  relative_delta : Option ℚ
  compare_type : String
  warn_threshold : ℚ
  fail_threshold : ℚ
  severity : String
  deriving Repr, DecidableEq

/-- The severity branch of `compute_metric_drift`: `comparator` is
`relative_delta` (possibly `None`) in relative mode and `abs_delta`
otherwise. -/
def driftSeverity (comparator : Option ℚ) (rule : DriftRule) : String :=
  match comparator with
  | none => "warning"
  | some c => if c > rule.fail then "fail" else if c > rule.warn then "warning" else "ok"

/-- The loop body of `compute_metric_drift` for one metric present in both
maps and in `DRIFT_RULES`. -/
def driftRow (metric : String) (cv bv : ℚ) (rule : DriftRule) : DriftRow :=
  let delta := cv - bv
  let absDelta := |delta|
  let relativeDelta : Option ℚ := if bv ≠ 0 then some (absDelta / |bv|) else none
  let comparator : Option ℚ :=
    if rule.compare = "relative" then relativeDelta else some absDelta
  { metric := metric
    current_value := cv
    baseline_value := bv
    delta := delta
    abs_delta := absDelta
    relative_delta := relativeDelta
    compare_type := rule.compare
    warn_threshold := rule.warn
    fail_threshold := rule.fail
    severity := driftSeverity comparator rule }

/-- Insertion step for the sort by metric name. -/
def insertByMetric (r : DriftRow) : List DriftRow → List DriftRow
  | [] => [r]
  | x :: xs => if r.metric ≤ x.metric then r :: x :: xs else x :: insertByMetric r xs

/-- The final `sort_values("metric")` of `compute_metric_drift`: an
ascending sort of the rows by metric name (an executable insertion sort;
the sort only permutes rows, which is all the theorems below rely on). -/
def sortByMetric : List DriftRow → List DriftRow
  | [] => []
  | x :: xs => insertByMetric x (sortByMetric xs)

/-- `compute_metric_drift` from `pipeline_audit.py`: iterate over the
current metric map, skip metrics absent from the baseline map or from
`DRIFT_RULES`, classify each remaining metric, and sort rows by metric
name. -/
def computeMetricDrift (current baseline : List (String × ℚ)) : List DriftRow :=
  sortByMetric <| current.filterMap fun p =>
    match baseline.lookup p.1, DRIFT_RULES.lookup p.1 with
    | some bv, some rule => some (driftRow p.1 p.2 bv rule)
    | _, _ => none

example :
    (computeMetricDrift [("icu_link_rate", 0.7)] [("icu_link_rate", 0.6)]).map
      (fun r => (r.metric, r.severity)) = [("icu_link_rate", "fail")] := by
  with_unfolding_all decide

example :
    (computeMetricDrift [("icu_link_rate", 0.7)] [("icu_link_rate", 0.65)]).map
      (fun r => (r.metric, r.severity)) = [("icu_link_rate", "warning")] := by
  with_unfolding_all decide

example :
    (computeMetricDrift [("cohort_rows", 5)] [("cohort_rows", 0)]).map
      (fun r => (r.metric, r.severity, r.relative_delta)) =
      [("cohort_rows", "warning", none)] := by with_unfolding_all decide

example :
    computeMetricDrift [("unknown_metric", 5)] [("unknown_metric", 0)] = [] := by
  with_unfolding_all decide

theorem mem_insertByMetric {r x : DriftRow} {l : List DriftRow} :
    x ∈ insertByMetric r l ↔ x = r ∨ x ∈ l := by
  induction l with
  | nil => simp [insertByMetric]
  | cons a t ih =>
    simp only [insertByMetric]
    split
    · simp
    · simp only [List.mem_cons, ih]
      tauto

theorem mem_sortByMetric {x : DriftRow} {l : List DriftRow} :
    x ∈ sortByMetric l ↔ x ∈ l := by
  induction l with
  | nil => simp [sortByMetric]
  | cons a t ih => simp [sortByMetric, mem_insertByMetric, ih]

theorem lookup_mem {α β : Type} [BEq α] [LawfulBEq α] {l : List (α × β)} {k : α} {v : β}
    (h : l.lookup k = some v) : (k, v) ∈ l := by
  induction l with
  | nil => simp [List.lookup] at h
  | cons p t ih =>
    rw [List.lookup_cons] at h
    split at h
    · rename_i heq
      cases Option.some.inj h
      obtain ⟨a, b⟩ := p
      have ha : k = a := by simpa using heq
      subst ha
      exact List.mem_cons_self _ _
    · exact List.mem_cons_of_mem _ (ih h)

theorem lookup_isSome_of_mem {α β : Type} [BEq α] [LawfulBEq α] {l : List (α × β)}
    {p : α × β} (h : p ∈ l) : (l.lookup p.1).isSome := by
  induction l with
  | nil => simp at h
  | cons q t ih =>
    rw [List.lookup_cons]
    split
    · simp
    · rename_i hne
      rcases List.mem_cons.1 h with rfl | hmem
      · simp at hne
      · exact ih hmem

/-- The row `compute_metric_drift` emits for `(m, cv)` when the baseline
map and rule table lookups succeed. -/
theorem computeMetricDrift_row_mem
    {current baseline : List (String × ℚ)} {m : String} {cv bv : ℚ} {rule : DriftRule}
    (hmem : (m, cv) ∈ current) (hb : baseline.lookup m = some bv)
    (hr : DRIFT_RULES.lookup m = some rule) :
    driftRow m cv bv rule ∈ computeMetricDrift current baseline := by
  unfold computeMetricDrift
  rw [mem_sortByMetric, List.mem_filterMap]
  exact ⟨(m, cv), hmem, by simp [hb, hr]⟩

/-- Every row of `compute_metric_drift` comes from a current-map entry
whose baseline and rule lookups succeeded. -/
theorem computeMetricDrift_row_src
    {current baseline : List (String × ℚ)} {row : DriftRow}
    (h : row ∈ computeMetricDrift current baseline) :
    ∃ cv bv rule, (row.metric, cv) ∈ current ∧
      baseline.lookup row.metric = some bv ∧
      DRIFT_RULES.lookup row.metric = some rule ∧
      row = driftRow row.metric cv bv rule := by
  unfold computeMetricDrift at h
  rw [mem_sortByMetric, List.mem_filterMap] at h
  obtain ⟨p, hp, hf⟩ := h
  cases hb : baseline.lookup p.1 <;> cases hr : DRIFT_RULES.lookup p.1 <;>
    simp [hb, hr] at hf
  rename_i bv rule
  have hmetric : row.metric = p.1 := by rw [← hf]; rfl
  subst hf
  exact ⟨p.2, bv, rule, by simpa [hmetric] using hp, by rw [hmetric]; exact hb,
    by rw [hmetric]; exact hr, by rw [hmetric]⟩

/-- C1: for metrics present in both maps whose drift rule has compare
mode "absolute", `compute_metric_drift` emits a row classified `fail`
when `abs_delta > fail_threshold`, `warning` when
`warn_threshold < abs_delta ≤ fail_threshold`, and `ok` otherwise; a
metric absent from either map or from the rule table yields no row. -/
theorem computeMetricDrift_absolute_spec
    (current baseline : List (String × ℚ)) (m : String) :
    (∀ cv bv rule, current.lookup m = some cv → baseline.lookup m = some bv →
        DRIFT_RULES.lookup m = some rule → rule.compare = "absolute" →
        ∃ row ∈ computeMetricDrift current baseline,
          row.metric = m ∧ row.current_value = cv ∧ row.baseline_value = bv ∧
          (|cv - bv| > rule.fail → row.severity = "fail") ∧
          (rule.warn < |cv - bv| ∧ |cv - bv| ≤ rule.fail → row.severity = "warning") ∧
          (|cv - bv| ≤ rule.fail ∧ |cv - bv| ≤ rule.warn → row.severity = "ok")) ∧
    ((current.lookup m = none ∨ baseline.lookup m = none ∨ DRIFT_RULES.lookup m = none) →
      ∀ row ∈ computeMetricDrift current baseline, row.metric ≠ m) := by
  constructor
  · intro cv bv rule hc hb hr habs
    have hsev : (driftRow m cv bv rule).severity =
        if |cv - bv| > rule.fail then "fail"
        else if |cv - bv| > rule.warn then "warning" else "ok" := by
      simp [driftRow, driftSeverity, habs]
    refine ⟨driftRow m cv bv rule, computeMetricDrift_row_mem (lookup_mem hc) hb hr,
      rfl, rfl, rfl, ?_, ?_, ?_⟩ <;> intro hcase
    · rw [hsev, if_pos hcase]
    · rw [hsev, if_neg (not_lt.2 hcase.2), if_pos hcase.1]
    · rw [hsev, if_neg (not_lt.2 hcase.1), if_neg (not_lt.2 hcase.2)]
  · rintro habsent row hrow rfl
    obtain ⟨cv, bv, rule, hmem, hb, hr, -⟩ := computeMetricDrift_row_src hrow
    rcases habsent with hnone | hnone | hnone
    · have := lookup_isSome_of_mem hmem
      simp [hnone] at this
    · simp [hb] at hnone
    · simp [hr] at hnone

/-- Witness for `computeMetricDrift_absolute_spec` at concrete inputs. -/
theorem computeMetricDrift_absolute_spec_witness :
    ∃ row ∈ computeMetricDrift [("icu_link_rate", 0.7)] [("icu_link_rate", 0.6)],
      row.metric = "icu_link_rate" ∧ row.severity = "fail" := by
  obtain ⟨row, hmem, hm, -, -, hfail, -, -⟩ :=
    (computeMetricDrift_absolute_spec [("icu_link_rate", 0.7)] [("icu_link_rate", 0.6)]
      "icu_link_rate").1 0.7 0.6 ⟨"absolute", 0.04, 0.08⟩ rfl rfl rfl rfl
  exact ⟨row, hmem, hm, hfail (by with_unfolding_all decide)⟩

/-- C5: when a metric's rule requests relative comparison and the
baseline value is exactly zero, every emitted row for that metric has
severity "warning" and `relative_delta = None`, whatever the delta. -/
theorem computeMetricDrift_relative_zero_baseline
    (current baseline : List (String × ℚ)) (m : String) (cv : ℚ) (rule : DriftRule)
    (hc : current.lookup m = some cv) (hb : baseline.lookup m = some 0)
    (hr : DRIFT_RULES.lookup m = some rule) (hrel : rule.compare = "relative") :
    (∃ row ∈ computeMetricDrift current baseline, row.metric = m) ∧
    (∀ row ∈ computeMetricDrift current baseline, row.metric = m →
      row.severity = "warning" ∧ row.relative_delta = none) := by
  constructor
  · exact ⟨driftRow m cv 0 rule, computeMetricDrift_row_mem (lookup_mem hc) hb hr, rfl⟩
  · intro row hrow hm
    obtain ⟨cv2, bv2, rule2, hmem, hb2, hr2, heq⟩ := computeMetricDrift_row_src hrow
    rw [hm] at hb2 hr2
    rw [hb] at hb2
    rw [hr] at hr2
    cases Option.some.inj hb2
    cases Option.some.inj hr2
    rw [heq, hm]
    simp [driftRow, driftSeverity, hrel]

/-- Witness for `computeMetricDrift_relative_zero_baseline` at concrete inputs. -/
theorem computeMetricDrift_relative_zero_baseline_witness :
    (∃ row ∈ computeMetricDrift [("cohort_rows", 5)] [("cohort_rows", 0)],
      row.metric = "cohort_rows") ∧
    (∀ row ∈ computeMetricDrift [("cohort_rows", 5)] [("cohort_rows", 0)],
      row.metric = "cohort_rows" →
      row.severity = "warning" ∧ row.relative_delta = none) :=
  computeMetricDrift_relative_zero_baseline [("cohort_rows", 5)] [("cohort_rows", 0)]
    "cohort_rows" 5 ⟨"relative", 0.05, 0.10⟩ rfl rfl rfl rfl

/-! ## Stage runner (`run_pipeline_with_logs`) -/

/-- One entry of the `stage_results` list built by
`run_pipeline_with_logs` (timestamps, durations and line counts are
wall-clock/stream I/O and are omitted). -/
structure StageResult where
  stage_id : String
  command : String
  status : String
  returncode : Option Int
  log_path : String
  deriving Repr, DecidableEq

/-- The run envelope returned by `run_pipeline_with_logs` (again without
the wall-clock timestamp fields). -/
structure PipelineRun where
  success : Bool
  stages : List StageResult
  deriving Repr, DecidableEq

/-- The stage loop of `run_pipeline_with_logs`.  `exec i` is the return
code the subprocess of the `i`-th stage command would produce (the oracle
standing for `_run_stage_command`); `failed` is `encountered_failure`.
Returns the recorded stage results and the final `encountered_failure`
flag. -/
def runStages (exec : Nat → Int) (logsDir : String) :
    Nat → Bool → List (String × String) → List StageResult × Bool
  | _, failed, [] => ([], failed)
  | i, true, (sid, cmd) :: rest =>
    (⟨sid, cmd, "skipped", none, logsDir ++ "/" ++ sid ++ ".log"⟩ ::
       (runStages exec logsDir (i + 1) true rest).1,
     (runStages exec logsDir (i + 1) true rest).2)
  | i, false, (sid, cmd) :: rest =>
    (⟨sid, cmd, if exec i = 0 then "ok" else "failed", some (exec i),
       logsDir ++ "/" ++ sid ++ ".log"⟩ ::
       (runStages exec logsDir (i + 1) (exec i != 0) rest).1,
     (runStages exec logsDir (i + 1) (exec i != 0) rest).2)

/-- `run_pipeline_with_logs` from `pipeline_audit.py`.  `execConsistency`
is the return code of the optional `make notebook-pipeline` consistency
stage, which runs only when `run_consistency_check` is set and no earlier
stage failed. -/
def runPipelineWithLogs (exec : Nat → Int) (execConsistency : Int) (logsDir : String)
    (stageCommands : List (String × String)) (runConsistencyCheck : Bool) :
    PipelineRun :=
  let main := runStages exec logsDir 0 false stageCommands
  let withCC :=
    if runConsistencyCheck && !main.2 then
      let rc := execConsistency
      (main.1 ++ [⟨"05_consistency", "make notebook-pipeline",
        if rc = 0 then "ok" else "failed", some rc, logsDir ++ "/05_consistency.log"⟩],
       main.2 || (rc != 0))
    else main
  { success := !withCC.2, stages := withCC.1 }

example :
    runPipelineWithLogs (fun i => if i = 0 then 0 else 2) 0 "logs"
      [("01_cohort", "make notebook-cohort"), ("02_classifier", "make notebook-classifier"),
       ("03_rater", "make notebook-rater")] false =
    { success := false,
      stages :=
        [⟨"01_cohort", "make notebook-cohort", "ok", some 0, "logs/01_cohort.log"⟩,
         ⟨"02_classifier", "make notebook-classifier", "failed", some 2,
           "logs/02_classifier.log"⟩,
         ⟨"03_rater", "make notebook-rater", "skipped", none, "logs/03_rater.log"⟩] } := by
  decide

/-- Once `encountered_failure` is set, every remaining stage is recorded
as skipped with no return code and the deterministic log path. -/
theorem runStages_failed_all_skipped (exec : Nat → Int) (logsDir : String) :
    ∀ (cmds : List (String × String)) (i : Nat),
      ∀ r ∈ (runStages exec logsDir i true cmds).1,
        r.status = "skipped" ∧ r.returncode = none ∧
        r.log_path = logsDir ++ "/" ++ r.stage_id ++ ".log" := by
  intro cmds
  induction cmds with
  | nil => intro i r hr; simp [runStages] at hr
  | cons p rest ih =>
    intro i r hr
    obtain ⟨sid, cmd⟩ := p
    simp only [runStages, List.mem_cons] at hr
    rcases hr with rfl | hr
    · exact ⟨rfl, rfl, rfl⟩
    · exact ih (i + 1) r hr

/-- The final `encountered_failure` flag is set exactly when it was set
initially or some recorded stage has status "failed". -/
theorem runStages_flag_iff (exec : Nat → Int) (logsDir : String) :
    ∀ (cmds : List (String × String)) (i : Nat) (failed : Bool),
      (runStages exec logsDir i failed cmds).2 = true ↔
        failed = true ∨ ∃ r ∈ (runStages exec logsDir i failed cmds).1,
          r.status = "failed" := by
  intro cmds
  induction cmds with
  | nil => intro i failed; simp [runStages]
  | cons p rest ih =>
    intro i failed
    obtain ⟨sid, cmd⟩ := p
    cases failed with
    | true =>
      simp only [runStages]
      exact ⟨fun _ => Or.inl trivial, fun _ => (ih (i + 1) true).2 (Or.inl rfl)⟩
    | false =>
      simp only [runStages]
      by_cases hrc : exec i = 0
      · have hflag : (exec i != 0) = false := by simp [hrc]
        rw [hflag, ih (i + 1) false]
        simp only [List.mem_cons]
        constructor
        · rintro (h | ⟨r, hr, hs⟩)
          · exact absurd h (by simp)
          · exact Or.inr ⟨r, Or.inr hr, hs⟩
        · rintro (h | ⟨r, hr | hr, hs⟩)
          · exact absurd h (by simp)
          · rw [hr] at hs
            simp [hrc] at hs
          · exact Or.inr ⟨r, hr, hs⟩
      · have hflag : (exec i != 0) = true := by simpa using hrc
        rw [hflag]
        constructor
        · intro _
          exact Or.inr ⟨_, List.mem_cons_self _ _, by simp [hrc]⟩
        · intro _
          exact (ih (i + 1) true).2 (Or.inl rfl)

/-- Shape of the record at index `j`: it always documents the `j`-th
requested stage, with the deterministic log path; a skipped record
carries no return code, a non-skipped record carries the stage's return
code with the matching "ok"/"failed" status. -/
theorem runStages_record_shape (exec : Nat → Int) (logsDir : String) :
    ∀ (cmds : List (String × String)) (i : Nat) (failed : Bool) (j : Nat)
      (rj : StageResult),
      ((runStages exec logsDir i failed cmds).1)[j]? = some rj →
      ∃ sid cmd, cmds[j]? = some (sid, cmd) ∧ rj.stage_id = sid ∧ rj.command = cmd ∧
        rj.log_path = logsDir ++ "/" ++ sid ++ ".log" ∧
        (rj.status = "skipped" → rj.returncode = none) ∧
        (rj.status ≠ "skipped" →
          ∃ rc, rj.returncode = some rc ∧
            rj.status = (if rc = 0 then "ok" else "failed")) := by
  intro cmds
  induction cmds with
  | nil => intro i failed j rj h; simp [runStages] at h
  | cons p rest ih =>
    intro i failed j rj h
    obtain ⟨sid, cmd⟩ := p
    cases failed with
    | true =>
      simp only [runStages] at h
      match j with
      | 0 =>
        rw [List.getElem?_cons_zero] at h
        cases Option.some.inj h
        exact ⟨sid, cmd, by simp, rfl, rfl, rfl, fun _ => rfl, fun hne => absurd rfl hne⟩
      | Nat.succ k =>
        rw [List.getElem?_cons_succ] at h
        obtain ⟨sid2, cmd2, hc, h1, h2, h3, h4, h5⟩ := ih (i + 1) true k rj h
        exact ⟨sid2, cmd2, by simpa using hc, h1, h2, h3, h4, h5⟩
    | false =>
      simp only [runStages] at h
      match j with
      | 0 =>
        rw [List.getElem?_cons_zero] at h
        cases Option.some.inj h
        refine ⟨sid, cmd, by simp, rfl, rfl, rfl, ?_, ?_⟩
        · intro hsk
          by_cases hrc : exec i = 0 <;> simp [hrc] at hsk
        · intro _
          exact ⟨exec i, rfl, rfl⟩
      | Nat.succ k =>
        rw [List.getElem?_cons_succ] at h
        obtain ⟨sid2, cmd2, hc, h1, h2, h3, h4, h5⟩ := ih (i + 1) (exec i != 0) k rj h
        exact ⟨sid2, cmd2, by simpa using hc, h1, h2, h3, h4, h5⟩

theorem mem_of_getElem_opt {α : Type} {l : List α} {n : Nat} {a : α}
    (h : l[n]? = some a) : a ∈ l := by
  obtain ⟨hlt, rfl⟩ := List.getElem?_eq_some.1 h
  exact List.getElem_mem hlt

/-- Recorded stage lists have one entry per requested stage. -/
theorem runStages_length (exec : Nat → Int) (logsDir : String) :
    ∀ (cmds : List (String × String)) (i : Nat) (failed : Bool),
      (runStages exec logsDir i failed cmds).1.length = cmds.length := by
  intro cmds
  induction cmds with
  | nil => intro i failed; cases failed <;> simp [runStages]
  | cons p rest ih =>
    intro i failed
    obtain ⟨sid, cmd⟩ := p
    cases failed <;> simp [runStages, ih]

/-- Any record occurring after a "failed" record is a fully formed
skipped record. -/
theorem runStages_failed_then_skipped (exec : Nat → Int) (logsDir : String) :
    ∀ (cmds : List (String × String)) (i : Nat) (failed : Bool) (j k : Nat)
      (rj rk : StageResult), j < k →
      ((runStages exec logsDir i failed cmds).1)[j]? = some rj →
      ((runStages exec logsDir i failed cmds).1)[k]? = some rk →
      rj.status = "failed" →
      rk.status = "skipped" ∧ rk.returncode = none ∧
        rk.log_path = logsDir ++ "/" ++ rk.stage_id ++ ".log" := by
  intro cmds
  induction cmds with
  | nil => intro i failed j k rj rk hjk hj hk hfail; simp [runStages] at hj
  | cons p rest ih =>
    intro i failed j k rj rk hjk hj hk hfail
    obtain ⟨sid, cmd⟩ := p
    cases failed with
    | true =>
      exact runStages_failed_all_skipped exec logsDir _ i rk (mem_of_getElem_opt hk)
    | false =>
      simp only [runStages] at hj hk
      match j, k, hjk with
      | j, 0, hjk => exact absurd hjk (by omega)
      | 0, Nat.succ k2, hjk =>
        rw [List.getElem?_cons_zero] at hj
        cases Option.some.inj hj
        rw [List.getElem?_cons_succ] at hk
        by_cases hrc : exec i = 0
        · simp [hrc] at hfail
        · have hflag : (exec i != 0) = true := by simpa using hrc
          rw [hflag] at hk
          exact runStages_failed_all_skipped exec logsDir _ (i + 1) rk
            (mem_of_getElem_opt hk)
      | Nat.succ j2, Nat.succ k2, hjk =>
        rw [List.getElem?_cons_succ] at hj hk
        exact ih (i + 1) (exec i != 0) j2 k2 rj rk (by omega) hj hk hfail

/-- C6: `run_pipeline_with_logs` stops scheduling after the first failing
stage — every record after a "failed" record is a skipped record with no
return code and the deterministic log path; every requested stage remains
recorded, in order, under its stage id, command and log path; and the
returned `success` flag is true exactly when no recorded stage failed. -/
theorem runPipelineWithLogs_contract
    (exec : Nat → Int) (execCC : Int) (logsDir : String)
    (stageCommands : List (String × String)) (runCC : Bool) :
    ((runPipelineWithLogs exec execCC logsDir stageCommands runCC).success = true ↔
      ∀ r ∈ (runPipelineWithLogs exec execCC logsDir stageCommands runCC).stages,
        r.status ≠ "failed") ∧
    (∀ (j k : Nat) (rj rk : StageResult), j < k →
      (runPipelineWithLogs exec execCC logsDir stageCommands runCC).stages[j]? = some rj →
      (runPipelineWithLogs exec execCC logsDir stageCommands runCC).stages[k]? = some rk →
      rj.status = "failed" →
      rk.status = "skipped" ∧ rk.returncode = none ∧
        rk.log_path = logsDir ++ "/" ++ rk.stage_id ++ ".log") ∧
    (∀ j : Nat, j < stageCommands.length →
      ∃ (rj : StageResult) (sid cmd : String),
        (runPipelineWithLogs exec execCC logsDir stageCommands runCC).stages[j]? = some rj ∧
        stageCommands[j]? = some (sid, cmd) ∧ rj.stage_id = sid ∧ rj.command = cmd ∧
        rj.log_path = logsDir ++ "/" ++ sid ++ ".log" ∧
        (rj.status = "skipped" → rj.returncode = none)) := by
  have hlen := runStages_length exec logsDir stageCommands 0 false
  by_cases hcc : (runCC && !(runStages exec logsDir 0 false stageCommands).2) = true
  · -- consistency stage appended; in particular the main run did not fail
    have hmain2 : (runStages exec logsDir 0 false stageCommands).2 = false := by
      simp only [Bool.and_eq_true] at hcc
      simpa using hcc.2
    have hstages :
        (runPipelineWithLogs exec execCC logsDir stageCommands runCC).stages =
          (runStages exec logsDir 0 false stageCommands).1 ++
            [⟨"05_consistency", "make notebook-pipeline",
              if execCC = 0 then "ok" else "failed", some execCC,
              logsDir ++ "/05_consistency.log"⟩] := by
      simp only [runPipelineWithLogs, hcc, if_true]
    have hsuccess :
        (runPipelineWithLogs exec execCC logsDir stageCommands runCC).success =
          !(((runStages exec logsDir 0 false stageCommands).2) || (execCC != 0)) := by
      simp only [runPipelineWithLogs, hcc, if_true]
    have hnofail : ∀ r ∈ (runStages exec logsDir 0 false stageCommands).1,
        r.status ≠ "failed" := by
      intro r hr hstat
      have := (runStages_flag_iff exec logsDir stageCommands 0 false).2
        (Or.inr ⟨r, hr, hstat⟩)
      rw [hmain2] at this
      exact Bool.false_ne_true this
    refine ⟨?_, ?_, ?_⟩
    · rw [hsuccess, hstages, hmain2]
      by_cases hrc : execCC = 0
      · simp only [hrc]
        constructor
        · intro _ r hr
          rcases List.mem_append.1 hr with hr | hr
          · exact hnofail r hr
          · rcases List.mem_cons.1 hr with rfl | hr
            · simp
            · simp at hr
        · intro _
          simp
      · have : (execCC != 0) = true := by simpa using hrc
        rw [this]
        simp only [Bool.or_true, Bool.not_true]
        constructor
        · intro h
          exact absurd h (by simp)
        · intro hall
          have hmem : (⟨"05_consistency", "make notebook-pipeline",
              if execCC = 0 then "ok" else "failed", some execCC,
              logsDir ++ "/05_consistency.log"⟩ : StageResult) ∈
              (runStages exec logsDir 0 false stageCommands).1 ++
                [⟨"05_consistency", "make notebook-pipeline",
                  if execCC = 0 then "ok" else "failed", some execCC,
                  logsDir ++ "/05_consistency.log"⟩] :=
            List.mem_append.2 (Or.inr (List.mem_cons_self _ _))
          have := hall _ hmem
          simp [hrc] at this
    · intro j k rj rk hjk hj hk hfail
      rw [hstages] at hj hk
      by_cases hjlt : j < (runStages exec logsDir 0 false stageCommands).1.length
      · rw [List.getElem?_append_left hjlt] at hj
        by_cases hklt : k < (runStages exec logsDir 0 false stageCommands).1.length
        · rw [List.getElem?_append_left hklt] at hk
          exact runStages_failed_then_skipped exec logsDir stageCommands 0 false
            j k rj rk hjk hj hk hfail
        · exact absurd hfail (hnofail rj (mem_of_getElem_opt hj))
      · -- rj would be the consistency record, after which nothing is recorded
        push_neg at hjlt
        have hklen : (runStages exec logsDir 0 false stageCommands).1.length + 1 ≤ k := by
          omega
        rw [List.getElem?_append_right (by omega)] at hk
        have : k - (runStages exec logsDir 0 false stageCommands).1.length ≥ 1 := by omega
        match hk2 : k - (runStages exec logsDir 0 false stageCommands).1.length,
            this with
        | Nat.succ m, _ =>
          rw [hk2] at hk
          simp at hk
    · intro j hj
      have hjlt : j < (runStages exec logsDir 0 false stageCommands).1.length := by
        rw [hlen]; exact hj
      obtain ⟨hlt, hget⟩ :
          j < (runStages exec logsDir 0 false stageCommands).1.length ∧
          ((runStages exec logsDir 0 false stageCommands).1)[j]? =
            some ((runStages exec logsDir 0 false stageCommands).1)[j] :=
        ⟨hjlt, List.getElem?_eq_getElem hjlt⟩
      obtain ⟨sid, cmd, hc, h1, h2, h3, h4, -⟩ :=
        runStages_record_shape exec logsDir stageCommands 0 false j _ hget
      refine ⟨_, sid, cmd, ?_, hc, h1, h2, h3, h4⟩
      rw [hstages, List.getElem?_append_left hjlt]
      exact hget
  · -- no consistency stage: the envelope is the main run
    have heq : runPipelineWithLogs exec execCC logsDir stageCommands runCC =
        { success := !(runStages exec logsDir 0 false stageCommands).2,
          stages := (runStages exec logsDir 0 false stageCommands).1 } := by
      simp only [runPipelineWithLogs]
      rw [if_neg (by simpa using hcc)]
    rw [heq]
    refine ⟨?_, ?_, ?_⟩
    · simp only [Bool.not_eq_true']
      constructor
      · intro h r hr hstat
        have := (runStages_flag_iff exec logsDir stageCommands 0 false).2
          (Or.inr ⟨r, hr, hstat⟩)
        rw [h] at this
        exact Bool.false_ne_true this
      · intro hall
        cases hflag : (runStages exec logsDir 0 false stageCommands).2
        · rfl
        · obtain hini | ⟨r, hr, hstat⟩ :=
            (runStages_flag_iff exec logsDir stageCommands 0 false).1 hflag
          · exact absurd hini (by simp)
          · exact absurd hstat (hall r hr)
    · intro j k rj rk hjk hj hk hfail
      exact runStages_failed_then_skipped exec logsDir stageCommands 0 false
        j k rj rk hjk hj hk hfail
    · intro j hj
      have hjlt : j < (runStages exec logsDir 0 false stageCommands).1.length := by
        rw [hlen]; exact hj
      have hget := List.getElem?_eq_getElem hjlt
      obtain ⟨sid, cmd, hc, h1, h2, h3, h4, -⟩ :=
        runStages_record_shape exec logsDir stageCommands 0 false j _ hget
      exact ⟨_, sid, cmd, hget, hc, h1, h2, h3, h4⟩

/-- Witness for `runPipelineWithLogs_contract`: with two stages whose
first command exits 1, the second stage is recorded as skipped with no
return code and the deterministic log path, and `success` is false. -/
theorem runPipelineWithLogs_contract_witness :
    (∃ rk : StageResult,
      (runPipelineWithLogs (fun _ => 1) 0 "logs"
        [("01_cohort", "make notebook-cohort"),
         ("02_classifier", "make notebook-classifier")] false).stages[1]? = some rk ∧
      rk.status = "skipped" ∧ rk.returncode = none ∧
      rk.log_path = "logs" ++ "/" ++ rk.stage_id ++ ".log") ∧
    (runPipelineWithLogs (fun _ => 1) 0 "logs"
      [("01_cohort", "make notebook-cohort"),
       ("02_classifier", "make notebook-classifier")] false).success = false := by
  obtain ⟨-, hskip, -⟩ :=
    runPipelineWithLogs_contract (fun _ => 1) 0 "logs"
      [("01_cohort", "make notebook-cohort"),
       ("02_classifier", "make notebook-classifier")] false
  refine ⟨⟨⟨"02_classifier", "make notebook-classifier", "skipped", none,
    "logs/02_classifier.log"⟩, by decide, ?_⟩, by decide⟩
  exact hskip 0 1
    ⟨"01_cohort", "make notebook-cohort", "failed", some 1, "logs/01_cohort.log"⟩
    ⟨"02_classifier", "make notebook-classifier", "skipped", none,
      "logs/02_classifier.log"⟩
    (by decide) (by decide) (by decide) (by decide)

/-! ## Baseline snapshot store (`pipeline_parity.py`)

The file reading and signature computation of `_build_snapshot`
(`pd.read_excel`, `sha256`) are pure functions of directory content; they
are embedded as the content fields of `WorkDir`, while the assembly,
missing-file handling, capture and compare logic is embedded from the
source. -/

/-- A finding dictionary of `pipeline_parity.py`:
`{severity, code, message}`. -/
structure Finding where
  severity : String
  code : String
  message : String
  deriving Repr, DecidableEq

/-- `MetricThreshold` from `pipeline_parity.py`. -/
structure MetricThreshold where
  warn : ℚ
  fail : ℚ
  deriving Repr, DecidableEq

/-- `PARITY_THRESHOLDS` from `pipeline_parity.py`. -/
def PARITY_THRESHOLDS : List (String × MetricThreshold) :=
  [("icu_link_rate", ⟨0.04, 0.08⟩),
   ("pct_any_gas_0_6h", ⟨0.04, 0.08⟩),
   ("pct_any_gas_0_24h", ⟨0.04, 0.08⟩),
   ("gas_source_other_rate", ⟨0.04, 0.08⟩),
   ("first_other_pco2_pct_eq_160_poc", ⟨0.05, 0.10⟩)]

/-- `CANONICAL_COHORT_FILENAME` from `workflow_contracts.py`. -/
def CANONICAL_COHORT_FILENAME : String := "MIMICIV all with CC.xlsx"

/-- `CANONICAL_NLP_FILENAME` from `workflow_contracts.py`. -/
def CANONICAL_NLP_FILENAME : String := "MIMICIV all with CC_with_NLP.xlsx"

/-- `ANALYSIS_EXPORT_FILENAMES` from `pipeline_audit.py`. -/
def ANALYSIS_EXPORT_FILENAMES : List String :=
  ["Symptom_Composition_by_Hypercapnia_Definition.xlsx",
   "Symptom_Composition_Pivot_ChartReady.xlsx",
   "Symptom_Composition_by_ABG_VBG_Overlap.xlsx",
   "Symptom_Composition_by_ICD_Gas_Overlap.xlsx"]

/-- `REQUIRED_RELATIVE_ARTIFACTS` from `pipeline_parity.py` (relative
paths rendered with "/"). -/
def REQUIRED_RELATIVE_ARTIFACTS : List String :=
  ["MIMIC tabular data/" ++ CANONICAL_COHORT_FILENAME,
   "MIMIC tabular data/" ++ CANONICAL_NLP_FILENAME,
   "qa_summary.json",
   "annotation_agreement_outputs_nlp/R3_vs_NLP_join_audit.json",
   "annotation_agreement_outputs_nlp/R3_vs_NLP_summary.txt"] ++
  ANALYSIS_EXPORT_FILENAMES

/-- The per-sheet signature computed by `_analysis_file_signature` for an
xlsx workbook sheet. -/
structure SheetSig where
  rows : Nat
  cols : Nat
  numeric_sum : ℚ
  deriving Repr, DecidableEq

/-- Result of `_analysis_file_signature`: a sheet map for xlsx exports,
or size and content hash for any other file. -/
inductive AnalysisSig where
  | xlsx (sheets : List (String × SheetSig))
  | binary (size_bytes : Nat) (sha256hex : String)
  deriving Repr, DecidableEq

/-- Result of `_cohort_or_classifier_signature`: row count, sorted column
list, unique-id counts, and the three identity hashes (hex digests over
the sorted, deduplicated id sequences; the hash computation itself is
abstracted as opaque strings). -/
structure IdSignature where
  rows : Nat
  columns : List String
  hadm_id_unique_count : Nat
  subject_id_unique_count : Nat
  id_pair_unique_count : Nat
  hadm_id_hash : String
  subject_id_hash : String
  id_pair_hash : String
  deriving Repr, DecidableEq

/-- The `rater_join_audit` JSON document, reduced to the only field the
engine reads: an optional `matched_rows` value. -/
structure RaterJoinAudit where
  matched_rows : Option Int
  deriving Repr, DecidableEq

/-- The snapshot dictionary assembled by `_build_snapshot` (the
`qa_summary_excerpt` and `artifacts` listing fields are never read by the
compare path and are omitted). -/
structure Snapshot where
  metrics : List (String × ℚ)
  cohort_signature : IdSignature
  classifier_signature : IdSignature
  analysis_signatures : List (String × AnalysisSig)
  rater_join_audit : RaterJoinAudit
  deriving Repr, DecidableEq

/-- A working directory: which (relative-path) files exist, plus the
artifact content from which `_build_snapshot` computes its signatures and
metrics. -/
structure WorkDir where
  hasFile : String → Bool
  metrics : List (String × ℚ)
  cohortSig : IdSignature
  classifierSig : IdSignature
  analysisSig : String → AnalysisSig
  raterMatchedRows : Option Int

/-- The required artifacts absent from the working directory, in
`_required_artifact_map` order. -/
def missingFiles (d : WorkDir) : List String :=
  REQUIRED_RELATIVE_ARTIFACTS.filter fun a => !d.hasFile a

/-- `_build_snapshot` from `pipeline_parity.py`: raises (returns
`Except.error`) when any required artifact is missing, otherwise
assembles the snapshot (the analysis-signature dict comprehension over
`ANALYSIS_EXPORT_FILENAMES` is kept). -/
def buildSnapshot (d : WorkDir) : Except String Snapshot :=
  if missingFiles d = [] then
    Except.ok
      { metrics := d.metrics
        cohort_signature := d.cohortSig
        classifier_signature := d.classifierSig
        analysis_signatures := ANALYSIS_EXPORT_FILENAMES.map fun n => (n, d.analysisSig n)
        rater_join_audit := ⟨d.raterMatchedRows⟩ }
  else
    Except.error ("Missing required artifacts: " ++ toString (missingFiles d))

/-- The result dictionary returned by `capture_jupyter_baseline`,
together with the manifest content it writes to
`baseline_manifest.json`. -/
structure CaptureResult where
  baseline_id : String
  copied_files : List String
  missing_files : List String
  manifest : Snapshot
  deriving Repr, DecidableEq

/-- `capture_jupyter_baseline` from `pipeline_parity.py`: the copy loop
records present artifacts as copied and absent ones as missing, then
`_build_snapshot` is invoked on the working directory (and its
`FileNotFoundError` propagates).  The optional copy of the latest audit
report and the timestamp/label bookkeeping affect no claim and are
omitted. -/
def captureJupyterBaseline (d : WorkDir) (baselineId : String) :
    Except String CaptureResult :=
  let copied := REQUIRED_RELATIVE_ARTIFACTS.filter fun a => d.hasFile a
  let missing := missingFiles d
  match buildSnapshot d with
  | Except.error e => Except.error e
  | Except.ok snap => Except.ok ⟨baselineId, copied, missing, snap⟩

/-- One row of the `drift_rows` list of `_metric_delta_findings`. -/
structure ParityDriftRow where
  metric : String
  baseline_value : ℚ
  current_value : ℚ
  delta : ℚ
  abs_delta : ℚ
  warn_threshold : ℚ
  fail_threshold : ℚ
  severity : String
  deriving Repr, DecidableEq

/-- Loop body of `_metric_delta_findings` for one `PARITY_THRESHOLDS`
entry (numeric message formatting elided). -/
def metricDeltaEntry (baseline current : List (String × ℚ))
    (name : String) (t : MetricThreshold) : List Finding × List ParityDriftRow :=
  match baseline.lookup name, current.lookup name with
  | some bv, some cv =>
    let delta := cv - bv
    let absDelta := |delta|
    if name = "gas_source_other_rate" ∧ delta < 0 then
      ([], [⟨name, bv, cv, delta, absDelta, t.warn, t.fail, "ok_improved"⟩])
    else if absDelta > t.fail then
      ([⟨"P1", "metric_delta_fail",
          name ++ " absolute delta exceeded fail threshold."⟩],
       [⟨name, bv, cv, delta, absDelta, t.warn, t.fail, "fail"⟩])
    else if absDelta > t.warn then
      ([⟨"P2", "metric_delta_warning",
          name ++ " absolute delta exceeded warning threshold."⟩],
       [⟨name, bv, cv, delta, absDelta, t.warn, t.fail, "warning"⟩])
    else
      ([], [⟨name, bv, cv, delta, absDelta, t.warn, t.fail, "ok"⟩])
  | _, _ => ([], [])

/-- `_metric_delta_findings` from `pipeline_parity.py`. -/
def metricDeltaFindings (baseline current : List (String × ℚ)) :
    List Finding × List ParityDriftRow :=
  let pieces := PARITY_THRESHOLDS.map fun e => metricDeltaEntry baseline current e.1 e.2
  ((pieces.map Prod.fst).flatten, (pieces.map Prod.snd).flatten)

/-- `_id_contract_findings` from `pipeline_parity.py` (the loop over the
three hash field names is unrolled in source order). -/
def idContractFindings (b c : IdSignature) (label : String) : List Finding :=
  (if b.rows ≠ c.rows then
    [⟨"P1", "row_count_mismatch", label ++ " row count mismatch."⟩]
   else []) ++
  (if b.hadm_id_hash ≠ c.hadm_id_hash then
    [⟨"P0", "id_contract_mismatch",
       label ++ " hadm_id_hash differs between baseline and current run."⟩]
   else []) ++
  (if b.subject_id_hash ≠ c.subject_id_hash then
    [⟨"P0", "id_contract_mismatch",
       label ++ " subject_id_hash differs between baseline and current run."⟩]
   else []) ++
  (if b.id_pair_hash ≠ c.id_pair_hash then
    [⟨"P0", "id_contract_mismatch",
       label ++ " id_pair_hash differs between baseline and current run."⟩]
   else [])

/-- Python `set(xs) == set(ys)` on sheet-name lists. -/
def sameKeySet (a b : List String) : Bool :=
  (a.all fun k => b.contains k) && (b.all fun k => a.contains k)

/-- The per-sheet comparison loop of `_analysis_signature_findings`
(reached only when the sheet-name sets agree, so the lookups cannot
fail; Python's `1e-6` threshold and `math.isfinite` guard — trivially
true over `ℚ` — are kept). -/
def sheetFindings (fileName : String)
    (baseSheets currSheets : List (String × SheetSig)) : List Finding :=
  (baseSheets.map fun e =>
    match baseSheets.lookup e.1, currSheets.lookup e.1 with
    | some bs, some cs =>
      (if (bs.rows, bs.cols) ≠ (cs.rows, cs.cols) then
        [⟨"P2", "analysis_shape_changed",
           fileName ++ "::" ++ e.1 ++ " shape changed."⟩]
       else []) ++
      (if |cs.numeric_sum - bs.numeric_sum| > (1e-6 : ℚ) then
        [⟨"P2", "analysis_numeric_sum_drift",
           fileName ++ "::" ++ e.1 ++ " numeric sum drift."⟩]
       else [])
    | _, _ => []).flatten

/-- `_analysis_signature_findings` from `pipeline_parity.py`. -/
def analysisSignatureFindings
    (baselineAnalysis currentAnalysis : List (String × AnalysisSig)) : List Finding :=
  (ANALYSIS_EXPORT_FILENAMES.map fun fileName =>
    match baselineAnalysis.lookup fileName, currentAnalysis.lookup fileName with
    | none, some _ =>
      [⟨"P2", "analysis_export_added",
         "Current run includes new analysis export not present in baseline: " ++
           fileName ++ "."⟩]
    | some _, none =>
      [⟨"P0", "analysis_export_missing",
         "Missing analysis export signature for " ++ fileName ++ "."⟩]
    | none, none =>
      [⟨"P0", "analysis_export_missing",
         "Missing analysis export signature in both baseline and current run for " ++
           fileName ++ "."⟩]
    | some (AnalysisSig.xlsx bSheets), some (AnalysisSig.xlsx cSheets) =>
      if sameKeySet (bSheets.map Prod.fst) (cSheets.map Prod.fst) then
        sheetFindings fileName bSheets cSheets
      else
        [⟨"P0", "analysis_sheet_mismatch", "Sheet names differ for " ++ fileName ++ "."⟩]
    | some (AnalysisSig.binary _ bh), some (AnalysisSig.binary _ ch) =>
      if bh ≠ ch then
        [⟨"P2", "analysis_binary_hash_drift",
           fileName ++ " binary hash changed between baseline and current run."⟩]
      else []
    | some _, some _ =>
      [⟨"P0", "analysis_kind_mismatch",
         "Analysis export type mismatch for " ++ fileName ++ "."⟩]).flatten

/-- Severity counting used for the parity summary:
`sum(1 for finding in findings if finding["severity"] == sev)`. -/
def countSeverity (findings : List Finding) (sev : String) : Nat :=
  (findings.filter fun f => f.severity = sev).length

/-- The parity report `summary` block. -/
structure Summary where
  p0_count : Nat
  p1_count : Nat
  p2_count : Nat
  total_findings : Nat
  deriving Repr, DecidableEq

/-- The report returned by `compare_current_to_baseline` (timestamps and
path strings omitted). -/
structure ParityReport where
  status : String
  summary : Summary
  findings : List Finding
  metric_drift : List ParityDriftRow
  current_metrics : List (String × ℚ)
  deriving Repr, DecidableEq

/-- `compare_current_to_baseline` from `pipeline_parity.py`, given the
parsed `baseline_manifest.json` (the function raises before this point
only when the manifest itself is missing). -/
def compareCurrentToBaseline (baselineManifest : Snapshot) (d : WorkDir) :
    ParityReport :=
  match buildSnapshot d with
  | Except.error msg =>
    { status := "fail"
      summary := ⟨1, 0, 0, 1⟩
      findings := [⟨"P0", "missing_artifact", msg⟩]
      metric_drift := []
      current_metrics := [] }
  | Except.ok current =>
    let raterZero : List Finding :=
      if current.rater_join_audit.matched_rows.getD 0 = 0 then
        [⟨"P0", "rater_zero_matches",
           "Current rater join audit reports matched_rows == 0."⟩]
      else []
    let raterDelta : List Finding :=
      if baselineManifest.rater_join_audit.matched_rows ≠
          current.rater_join_audit.matched_rows then
        [⟨"P2", "rater_match_count_delta", "Rater matched_rows changed."⟩]
      else []
    let md := metricDeltaFindings baselineManifest.metrics current.metrics
    let findings :=
      idContractFindings baselineManifest.cohort_signature
        current.cohort_signature "cohort" ++
      idContractFindings baselineManifest.classifier_signature
        current.classifier_signature "classifier" ++
      analysisSignatureFindings baselineManifest.analysis_signatures
        current.analysis_signatures ++
      raterZero ++ raterDelta ++ md.1
    let p0 := countSeverity findings "P0"
    let p1 := countSeverity findings "P1"
    let p2 := countSeverity findings "P2"
    { status := if p0 > 0 ∨ p1 > 0 then "fail"
        else if p2 > 0 then "warning" else "pass"
      summary := ⟨p0, p1, p2, findings.length⟩
      findings := findings
      metric_drift := md.2
      current_metrics := current.metrics }

theorem lookup_map_self {β : Type} (f : String → β) :
    ∀ (names : List String) (n : String), n ∈ names →
      (names.map fun m => (m, f m)).lookup n = some (f n) := by
  intro names
  induction names with
  | nil => intro n hn; simp at hn
  | cons m rest ih =>
    intro n hn
    rcases List.mem_cons.1 hn with rfl | hmem
    · simp [List.lookup_cons]
    · rw [List.map_cons, List.lookup_cons]
      split
      · rename_i heq
        have hmn : n = m := by simpa using heq
        subst hmn
        rfl
      · exact ih n hmem

theorem idContractFindings_self (s : IdSignature) (label : String) :
    idContractFindings s s label = [] := by
  simp [idContractFindings]

theorem sameKeySet_self (a : List String) : sameKeySet a a = true := by
  simp only [sameKeySet, Bool.and_eq_true, List.all_eq_true]
  exact ⟨fun k hk => by simpa using hk, fun k hk => by simpa using hk⟩

theorem sheetFindings_self (fileName : String) (s : List (String × SheetSig)) :
    sheetFindings fileName s s = [] := by
  unfold sheetFindings
  rw [List.flatten_eq_nil_iff]
  intro l hl
  rw [List.mem_map] at hl
  obtain ⟨e, he, rfl⟩ := hl
  have hsome := lookup_isSome_of_mem he
  cases hle : s.lookup e.1 with
  | none => simp [hle] at hsome
  | some bs =>
    have h6 : ¬ ((1e-6 : ℚ) < 0) := by norm_num
    simp [sub_self, abs_zero, h6]

theorem analysisSignatureFindings_self (f : String → AnalysisSig) :
    analysisSignatureFindings (ANALYSIS_EXPORT_FILENAMES.map fun n => (n, f n))
      (ANALYSIS_EXPORT_FILENAMES.map fun n => (n, f n)) = [] := by
  unfold analysisSignatureFindings
  rw [List.flatten_eq_nil_iff]
  intro l hl
  rw [List.mem_map] at hl
  obtain ⟨n, hn, rfl⟩ := hl
  rw [lookup_map_self f _ n hn]
  cases hfn : f n with
  | xlsx sheets => simp [sameKeySet_self, sheetFindings_self]
  | binary sz h => simp

theorem metricDeltaEntry_self (b : List (String × ℚ)) (name : String)
    (t : MetricThreshold) (hw : 0 ≤ t.warn) (hf : 0 ≤ t.fail) :
    (metricDeltaEntry b b name t).1 = [] := by
  unfold metricDeltaEntry
  cases h : b.lookup name with
  | none => rfl
  | some v =>
    simp only [sub_self, abs_zero]
    rw [if_neg (fun hc => lt_irrefl 0 hc.2), if_neg (not_lt.2 hf), if_neg (not_lt.2 hw)]

theorem metricDeltaFindings_self (b : List (String × ℚ)) :
    (metricDeltaFindings b b).1 = [] := by
  unfold metricDeltaFindings
  rw [List.flatten_eq_nil_iff]
  intro l hl
  rw [List.mem_map] at hl
  obtain ⟨piece, hp, rfl⟩ := hl
  rw [List.mem_map] at hp
  obtain ⟨e, he, rfl⟩ := hp
  have hbounds : 0 ≤ e.2.warn ∧ 0 ≤ e.2.fail := by
    simp only [PARITY_THRESHOLDS, List.mem_cons, List.not_mem_nil, or_false] at he
    rcases he with rfl | rfl | rfl | rfl | rfl <;> constructor <;> norm_num
  exact metricDeltaEntry_self b e.1 e.2 hbounds.1 hbounds.2

/-- C4: with a valid baseline manifest, a missing current artifact makes
`compare_current_to_baseline` return (not raise) a "fail" report whose
findings are exactly one P0 `missing_artifact` finding. -/
theorem compareCurrentToBaseline_missing_current
    (baselineManifest : Snapshot) (d : WorkDir) (hmiss : missingFiles d ≠ []) :
    (compareCurrentToBaseline baselineManifest d).status = "fail" ∧
    (compareCurrentToBaseline baselineManifest d).findings =
      [⟨"P0", "missing_artifact",
         "Missing required artifacts: " ++ toString (missingFiles d)⟩] ∧
    (compareCurrentToBaseline baselineManifest d).summary = ⟨1, 0, 0, 1⟩ := by
  have hb : buildSnapshot d =
      Except.error ("Missing required artifacts: " ++ toString (missingFiles d)) := by
    unfold buildSnapshot
    rw [if_neg hmiss]
  simp [compareCurrentToBaseline, hb]

/-- Concrete directory with every required artifact present whose rater
join audit reports zero matched rows. -/
def zeroMatchDir : WorkDir :=
  { hasFile := fun _ => true
    metrics := [("icu_link_rate", 0.7)]
    cohortSig := ⟨2, ["hadm_id", "subject_id"], 2, 2, 2, "a1", "b1", "c1"⟩
    classifierSig := ⟨2, ["hadm_id", "subject_id"], 2, 2, 2, "a2", "b2", "c2"⟩
    analysisSig := fun _ => AnalysisSig.xlsx [("Sheet1", ⟨2, 1, 3⟩)]
    raterMatchedRows := some 0 }

/-- `zeroMatchDir` with the only required artifact `qa_summary.json`
removed. -/
def missingQaDir : WorkDir :=
  { zeroMatchDir with
      hasFile := fun p => !(p == "qa_summary.json")
      raterMatchedRows := some 2 }

/-- A small concrete baseline manifest. -/
def sampleManifest : Snapshot :=
  ⟨[("icu_link_rate", 0.7)],
   ⟨2, ["hadm_id", "subject_id"], 2, 2, 2, "a1", "b1", "c1"⟩,
   ⟨2, ["hadm_id", "subject_id"], 2, 2, 2, "a2", "b2", "c2"⟩,
   ANALYSIS_EXPORT_FILENAMES.map fun n => (n, AnalysisSig.xlsx [("Sheet1", ⟨2, 1, 3⟩)]),
   ⟨some 2⟩⟩

/-- Witness for `compareCurrentToBaseline_missing_current` at a concrete
directory missing `qa_summary.json`. -/
theorem compareCurrentToBaseline_missing_current_witness :
    (compareCurrentToBaseline sampleManifest missingQaDir).status = "fail" ∧
    (compareCurrentToBaseline sampleManifest missingQaDir).summary = ⟨1, 0, 0, 1⟩ :=
  ⟨(compareCurrentToBaseline_missing_current sampleManifest missingQaDir
      (by decide)).1,
   (compareCurrentToBaseline_missing_current sampleManifest missingQaDir
      (by decide)).2.2⟩

/-- C10: the parity report status and summary counts are pure functions
of the finding severities: status is "fail" if a P0 or P1 finding exists,
else "warning" if a P2 finding exists, else "pass"; the summary records
the per-severity counts and the total finding count. -/
theorem compareCurrentToBaseline_status_derivation
    (baselineManifest : Snapshot) (d : WorkDir) :
    (compareCurrentToBaseline baselineManifest d).summary.p0_count =
      countSeverity (compareCurrentToBaseline baselineManifest d).findings "P0" ∧
    (compareCurrentToBaseline baselineManifest d).summary.p1_count =
      countSeverity (compareCurrentToBaseline baselineManifest d).findings "P1" ∧
    (compareCurrentToBaseline baselineManifest d).summary.p2_count =
      countSeverity (compareCurrentToBaseline baselineManifest d).findings "P2" ∧
    (compareCurrentToBaseline baselineManifest d).summary.total_findings =
      (compareCurrentToBaseline baselineManifest d).findings.length ∧
    (compareCurrentToBaseline baselineManifest d).status =
      (if 0 < countSeverity (compareCurrentToBaseline baselineManifest d).findings "P0" ∨
          0 < countSeverity (compareCurrentToBaseline baselineManifest d).findings "P1"
       then "fail"
       else if 0 < countSeverity (compareCurrentToBaseline baselineManifest d).findings "P2"
       then "warning"
       else "pass") := by
  cases hb : buildSnapshot d with
  | error e => simp [compareCurrentToBaseline, hb, countSeverity]
  | ok current => simp [compareCurrentToBaseline, hb]

/-- C7: with equal row counts, `_id_contract_findings` yields one P0
`id_contract_mismatch` finding for each identity-hash field that differs
and nothing else — equal row counts never suppress the identity check. -/
theorem idContractFindings_identity_spec (b c : IdSignature) (label : String)
    (hrows : b.rows = c.rows) :
    (b.hadm_id_hash ≠ c.hadm_id_hash →
      (⟨"P0", "id_contract_mismatch",
         label ++ " hadm_id_hash differs between baseline and current run."⟩ : Finding) ∈
        idContractFindings b c label) ∧
    (b.subject_id_hash ≠ c.subject_id_hash →
      (⟨"P0", "id_contract_mismatch",
         label ++ " subject_id_hash differs between baseline and current run."⟩ : Finding) ∈
        idContractFindings b c label) ∧
    (b.id_pair_hash ≠ c.id_pair_hash →
      (⟨"P0", "id_contract_mismatch",
         label ++ " id_pair_hash differs between baseline and current run."⟩ : Finding) ∈
        idContractFindings b c label) ∧
    (∀ f ∈ idContractFindings b c label,
      f.severity = "P0" ∧ f.code = "id_contract_mismatch") ∧
    ((idContractFindings b c label).length =
      (if b.hadm_id_hash ≠ c.hadm_id_hash then 1 else 0) +
      (if b.subject_id_hash ≠ c.subject_id_hash then 1 else 0) +
      (if b.id_pair_hash ≠ c.id_pair_hash then 1 else 0)) := by
  unfold idContractFindings
  rw [if_neg (by simp [hrows])]
  by_cases h1 : b.hadm_id_hash = c.hadm_id_hash <;>
    by_cases h2 : b.subject_id_hash = c.subject_id_hash <;>
      by_cases h3 : b.id_pair_hash = c.id_pair_hash <;>
        simp [h1, h2, h3]

/-- Baseline signature for the C7 witness. -/
def witnessSigBase : IdSignature :=
  ⟨2, ["hadm_id", "subject_id"], 2, 2, 2, "h0", "s0", "p0"⟩

/-- Current signature for the C7 witness: same row count, different
`hadm_id_hash`. -/
def witnessSigCurr : IdSignature :=
  ⟨2, ["hadm_id", "subject_id"], 2, 2, 2, "h1", "s0", "p0"⟩

/-- Witness for `idContractFindings_identity_spec`: equal row counts but
a differing `hadm_id_hash` produce the P0 identity-mismatch finding. -/
theorem idContractFindings_identity_spec_witness :
    (⟨"P0", "id_contract_mismatch",
       "cohort hadm_id_hash differs between baseline and current run."⟩ : Finding) ∈
      idContractFindings witnessSigBase witnessSigCurr "cohort" :=
  (idContractFindings_identity_spec witnessSigBase witnessSigCurr "cohort" rfl).1
    (by decide)

/-- C2 (amended): when capture succeeds and the directory is unchanged,
comparing it against the freshly captured manifest yields status "pass"
with zero findings, provided the rater join audit's `matched_rows` is
nonzero (a zero or absent `matched_rows` is always flagged as a P0
finding by the compare path, regardless of baseline). -/
theorem captureRoundtrip_pass (d : WorkDir) (bid : String) (res : CaptureResult)
    (hcap : captureJupyterBaseline d bid = Except.ok res)
    (hrater : d.raterMatchedRows.getD 0 ≠ 0) :
    (compareCurrentToBaseline res.manifest d).status = "pass" ∧
    (compareCurrentToBaseline res.manifest d).findings = [] := by
  unfold captureJupyterBaseline at hcap
  cases hb : buildSnapshot d with
  | error e => rw [hb] at hcap; cases hcap
  | ok snap =>
    rw [hb] at hcap
    have hres : res = ⟨bid, REQUIRED_RELATIVE_ARTIFACTS.filter fun a => d.hasFile a,
        missingFiles d, snap⟩ := (Except.ok.inj hcap).symm
    have hsnap : snap =
        ⟨d.metrics, d.cohortSig, d.classifierSig,
         ANALYSIS_EXPORT_FILENAMES.map fun n => (n, d.analysisSig n),
         ⟨d.raterMatchedRows⟩⟩ := by
      unfold buildSnapshot at hb
      by_cases hmiss : missingFiles d = []
      · rw [if_pos hmiss] at hb
        exact (Except.ok.inj hb).symm
      · rw [if_neg hmiss] at hb
        cases hb
    have hfind : (compareCurrentToBaseline res.manifest d).findings = [] := by
      simp only [compareCurrentToBaseline, hb, hres, hsnap]
      rw [if_neg (by simpa using hrater), if_neg (by simp)]
      rw [idContractFindings_self, idContractFindings_self,
        analysisSignatureFindings_self, metricDeltaFindings_self]
      rfl
    refine ⟨?_, hfind⟩
    have hstat : (compareCurrentToBaseline res.manifest d).status =
        (if 0 < countSeverity (compareCurrentToBaseline res.manifest d).findings "P0" ∨
            0 < countSeverity (compareCurrentToBaseline res.manifest d).findings "P1"
         then "fail"
         else if 0 < countSeverity (compareCurrentToBaseline res.manifest d).findings "P2"
         then "warning"
         else "pass") := by
      simp only [compareCurrentToBaseline, hb]
    rw [hstat, hfind]
    simp [countSeverity]

/-- C2 counterexample: on `zeroMatchDir` (all artifacts present, rater
join audit reporting zero matched rows, nothing changed in between),
capture succeeds but the immediate self-compare returns status "fail",
not "pass". -/
theorem captureRoundtrip_counterexample :
    (captureJupyterBaseline zeroMatchDir "baseline1").map
        (fun res => (compareCurrentToBaseline res.manifest zeroMatchDir).status) =
      Except.ok "fail" := by
  with_unfolding_all decide

/-- Directory identical to `zeroMatchDir` but with a healthy rater join
audit. -/
def cleanDir : WorkDir := { zeroMatchDir with raterMatchedRows := some 2 }

/-- Witness for `captureRoundtrip_pass` at the concrete `cleanDir`. -/
theorem captureRoundtrip_pass_witness :
    (captureJupyterBaseline cleanDir "baseline1").map
        (fun res => (compareCurrentToBaseline res.manifest cleanDir).status) =
      Except.ok "pass" := by
  have hcap : captureJupyterBaseline cleanDir "baseline1" =
      Except.ok ⟨"baseline1", REQUIRED_RELATIVE_ARTIFACTS, [],
        ⟨cleanDir.metrics, cleanDir.cohortSig, cleanDir.classifierSig,
         ANALYSIS_EXPORT_FILENAMES.map fun n => (n, cleanDir.analysisSig n),
         ⟨cleanDir.raterMatchedRows⟩⟩⟩ := by
    with_unfolding_all decide
  rw [hcap]
  exact congrArg Except.ok
    ((captureRoundtrip_pass cleanDir "baseline1" _ hcap (by decide)).1)

/-- C3: `capture_jupyter_baseline` on a directory missing the required
artifact `qa_summary.json` propagates `_build_snapshot`'s
`FileNotFoundError` (an `Except.error` here) instead of returning a
result whose `missing_files` lists the absent artifact. -/
theorem captureJupyterBaseline_missing_artifact_raises :
    missingFiles missingQaDir = ["qa_summary.json"] ∧
    captureJupyterBaseline missingQaDir "baseline1" =
      Except.error ("Missing required artifacts: " ++ toString ["qa_summary.json"]) := by
  with_unfolding_all decide

/-! ## Numeric-infinity validation (`_check_numeric_infinity`) -/

/-- An IEEE-754 double as far as the infinity check observes it: a finite
value, one of the two infinities, or NaN.  `np.isinf` is true exactly on
the infinities; NaN is non-finite but not infinite. -/
inductive PyFloat where
  | finite (q : ℚ)
  | inf
  | neginf
  | nan
  deriving Repr, DecidableEq

/-- `np.isinf` on one value. -/
def PyFloat.isinf : PyFloat → Bool
  | .inf => true
  | .neginf => true
  | _ => false

/-- `math.isfinite` / `np.isfinite` on one value. -/
def PyFloat.isfinite : PyFloat → Bool
  | .finite _ => true
  | _ => false

/-- A finding dictionary of `pipeline_audit.py`:
`{severity, category, code, message}`. -/
structure AuditFinding where
  severity : String
  category : String
  code : String
  message : String
  deriving Repr, DecidableEq

/-- The numeric columns (`df.select_dtypes(include=[np.number])`) of a
loaded data frame, as named columns of float values. -/
structure NumericFrame where
  cols : List (String × List PyFloat)
  deriving Repr, DecidableEq

/-- `inf_mask.sum()` of `_check_numeric_infinity`: the number of infinite
entries over all numeric columns. -/
def infCount (df : NumericFrame) : Nat :=
  (df.cols.map fun c => (c.2.filter PyFloat.isinf).length).sum

/-- `_check_numeric_infinity` from `pipeline_audit.py` (the
`numeric.empty` early return coincides with `inf_count = 0` and the
count interpolated into the message is elided). -/
def checkNumericInfinity (df : NumericFrame) (frameName : String) :
    List AuditFinding :=
  if 0 < infCount df then
    [⟨"P0", "numeric", "infinite_values_detected",
      frameName ++ " contains infinite values in numeric columns."⟩]
  else []

theorem infCount_pos_iff (df : NumericFrame) :
    0 < infCount df ↔ ∃ c ∈ df.cols, ∃ v ∈ c.2, v.isinf = true := by
  rw [Nat.pos_iff_ne_zero, ne_eq, infCount, List.sum_eq_zero_iff]
  push_neg
  constructor
  · rintro ⟨x, hx, hxne⟩
    rw [List.mem_map] at hx
    obtain ⟨c, hc, rfl⟩ := hx
    have hne : c.2.filter PyFloat.isinf ≠ [] := by
      intro hnil
      rw [hnil] at hxne
      exact hxne rfl
    obtain ⟨v, hv⟩ := List.exists_mem_of_ne_nil _ hne
    rw [List.mem_filter] at hv
    exact ⟨c, hc, v, hv.1, hv.2⟩
  · rintro ⟨c, hc, v, hv, hvinf⟩
    refine ⟨(c.2.filter PyFloat.isinf).length, List.mem_map_of_mem _ hc, ?_⟩
    intro h0
    rw [List.length_eq_zero] at h0
    have hvmem : v ∈ c.2.filter PyFloat.isinf := List.mem_filter.2 ⟨hv, hvinf⟩
    rw [h0] at hvmem
    simp at hvmem

/-- C8 (amended): `_check_numeric_infinity` produces its (single) P0
`infinite_values_detected` finding exactly when some numeric column
contains an infinite value (`np.isinf`); NaN values, though non-finite,
are not flagged. -/
theorem checkNumericInfinity_flags_iff_infinite (df : NumericFrame) (name : String) :
    (checkNumericInfinity df name ≠ [] ↔
      ∃ c ∈ df.cols, ∃ v ∈ c.2, v.isinf = true) ∧
    (∀ f ∈ checkNumericInfinity df name,
      f.severity = "P0" ∧ f.code = "infinite_values_detected") := by
  constructor
  · rw [← infCount_pos_iff]
    unfold checkNumericInfinity
    by_cases h : 0 < infCount df
    · rw [if_pos h]
      simpa using h
    · rw [if_neg h]
      simpa using h
  · intro f hf
    unfold checkNumericInfinity at hf
    split at hf
    · rcases List.mem_singleton.1 hf with rfl
      exact ⟨rfl, rfl⟩
    · simp at hf

/-- A frame whose single numeric column holds one NaN. -/
def nanFrame : NumericFrame := ⟨[("anthro_days_offset", [PyFloat.nan])]⟩

/-- C8 counterexample: `nanFrame` contains a non-finite numeric value
(NaN), yet `_check_numeric_infinity` produces no finding — the check
flags only infinities. -/
theorem checkNumericInfinity_nan_counterexample :
    PyFloat.isfinite PyFloat.nan = false ∧
    nanFrame.cols = [("anthro_days_offset", [PyFloat.nan])] ∧
    checkNumericInfinity nanFrame "cohort workbook" = [] := by decide

/-! ## Log pattern scanner (`scan_logs_for_findings`)

The compiled regexes of `LOG_PATTERNS` and `DEFAULT_ALLOWLIST_PATTERNS`
use only literal text, `\b` word boundaries and `.*` gaps, all under
`re.IGNORECASE`; they are embedded as executable case-insensitive
searches. -/

/-- When `s` starts with `pat` up to ASCII case, the remainder of `s`. -/
def startsWithCaseless : List Char → List Char → Option (List Char)
  | [], s => some s
  | _ :: _, [] => none
  | p :: ps, c :: cs =>
    if p.toLower = c.toLower then startsWithCaseless ps cs else none

/-- `re.search` of a literal pattern under `re.IGNORECASE`: the remainder
after the first occurrence of `pat` in `s`, if any. -/
def findFrom (pat : List Char) : List Char → Option (List Char)
  | [] => startsWithCaseless pat []
  | c :: cs =>
    match startsWithCaseless pat (c :: cs) with
    | some rest => some rest
    | none => findFrom pat cs

/-- Case-insensitive literal substring search on strings. -/
def substrSearchCI (pat line : String) : Bool := (findFrom pat.data line.data).isSome

/-- Python regex `\w`: letters, digits and underscore. -/
def isWordChar (c : Char) : Bool := c.isAlphanum || c == '_'

/-- A `\b` boundary holds against the adjacent character (or the string
edge). -/
def boundaryOk : Option Char → Bool
  | none => true
  | some c => !isWordChar c

/-- Search for `\b pat \b` with `prev` the character before the current
position. -/
def wordSearchFrom (pat : List Char) : Option Char → List Char → Bool
  | prev, [] =>
    match startsWithCaseless pat [] with
    | some rest => boundaryOk prev && boundaryOk rest.head?
    | none => false
  | prev, c :: cs =>
    (match startsWithCaseless pat (c :: cs) with
     | some rest => boundaryOk prev && boundaryOk rest.head?
     | none => false) ||
    wordSearchFrom pat (some c) cs

/-- `re.search` of `\b pat \b` under `re.IGNORECASE`. -/
def wordSearchCI (pat line : String) : Bool := wordSearchFrom pat.data none line.data

/-- `re.search` of literal parts separated by `.*` gaps. -/
def seqSearch : List (List Char) → List Char → Bool
  | [], _ => true
  | p :: ps, s =>
    match findFrom p s with
    | some rest => seqSearch ps rest
    | none => false

/-- The one entry of `DEFAULT_ALLOWLIST_PATTERNS`:
`r"Skipping .*archive .* export"`. -/
def allowSkippingArchiveExport (line : String) : Bool :=
  seqSearch ["Skipping ".data, "archive ".data, " export".data] line.data

/-- `DEFAULT_ALLOWLIST_PATTERNS` from `pipeline_audit.py`, compiled. -/
def DEFAULT_ALLOWLIST : List (String → Bool) := [allowSkippingArchiveExport]

/-- `LOG_PATTERNS` from `pipeline_audit.py`, compiled in table order. -/
def LOG_PATTERNS : List (String × (String → Bool) × String) :=
  [("P0", substrSearchCI "Traceback (most recent call last)", "traceback"),
   ("P0", wordSearchCI "ERROR", "error_token"),
   ("P0", wordSearchCI "Exception", "exception_token"),
   ("P1", substrSearchCI "RuntimeWarning", "runtime_warning"),
   ("P1", substrSearchCI "ConvergenceWarning", "convergence_warning"),
   ("P1", substrSearchCI "overflow", "overflow"),
   ("P1", substrSearchCI "invalid value encountered", "invalid_value")]

/-- The inner pattern loop of `scan_logs_for_findings`: the first
matching pattern wins (`break`). -/
def firstMatch : List (String × (String → Bool) × String) → String →
    Option (String × String)
  | [], _ => none
  | (sev, f, name) :: rest, line =>
    if f line then some (sev, name) else firstMatch rest line

/-- Classification of one log line: allow-listed lines are fully
suppressed, otherwise the first matching `LOG_PATTERNS` entry applies. -/
def scanLine (allow : List (String → Bool)) (line : String) :
    Option (String × String) :=
  if allow.any (fun a => a line) then none
  else firstMatch LOG_PATTERNS line

/-- Python `str.rstrip()`. -/
def rstrip (s : String) : String :=
  ⟨(s.data.reverse.dropWhile Char.isWhitespace).reverse⟩

/-- One row of the findings frame built by `scan_logs_for_findings`. -/
structure LogFinding where
  stage_id : String
  log_path : String
  line_number : Nat
  severity : String
  pattern : String
  message : String
  deriving Repr, DecidableEq

/-- One stage's captured log as the scanner sees it: the stage record
fields it reads, whether the log file exists, and its lines. -/
structure StageLog where
  stage_id : String
  log_path : String
  logExists : Bool
  lines : List String

/-- The line loop of `scan_logs_for_findings` (`enumerate(handle,
start=1)` is the counter `n`). -/
def scanLines (sid lp : String) (allow : List (String → Bool)) :
    Nat → List String → List LogFinding
  | _, [] => []
  | n, line :: rest =>
    (match scanLine allow line with
     | some (sev, name) => [⟨sid, lp, n, sev, name, rstrip line⟩]
     | none => []) ++ scanLines sid lp allow (n + 1) rest

/-- The per-stage body of `scan_logs_for_findings`: absent log files are
skipped. -/
def scanStage (allow : List (String → Bool)) (stage : StageLog) : List LogFinding :=
  if stage.logExists then scanLines stage.stage_id stage.log_path allow 1 stage.lines
  else []

/-- `scan_logs_for_findings` from `pipeline_audit.py`. -/
def scanLogsForFindings (stages : List StageLog) (allow : List (String → Bool)) :
    List LogFinding :=
  (stages.map (scanStage allow)).flatten

example :
    scanLogsForFindings
      [⟨"04_analysis", "logs/04_analysis.log", true,
        ["all good", "Traceback (most recent call last):", "  boom"]⟩]
      DEFAULT_ALLOWLIST =
    [⟨"04_analysis", "logs/04_analysis.log", 2, "P0", "traceback",
      "Traceback (most recent call last):"⟩] := by decide

example :
    scanLogsForFindings
      [⟨"01_cohort", "logs/01_cohort.log", true,
        ["Skipping ERROR archive xlsx export for cohort"]⟩]
      DEFAULT_ALLOWLIST = [] := by decide

example :
    scanLogsForFindings
      [⟨"01_cohort", "logs/01_cohort.log", true,
        ["some ERROR archive xlsx export for cohort"]⟩]
      DEFAULT_ALLOWLIST =
    [⟨"01_cohort", "logs/01_cohort.log", 1, "P0", "error_token",
      "some ERROR archive xlsx export for cohort"⟩] := by decide

theorem startsWithCaseless_self_append (p rest : List Char) :
    startsWithCaseless p (p ++ rest) = some rest := by
  induction p with
  | nil => rfl
  | cons c cs ih => simp [startsWithCaseless, ih]

theorem findFrom_isSome_of_startsWith {pat s : List Char}
    (h : (startsWithCaseless pat s).isSome) : (findFrom pat s).isSome := by
  cases s with
  | nil => exact h
  | cons c cs =>
    unfold findFrom
    cases hs : startsWithCaseless pat (c :: cs) with
    | some rest => simp
    | none => rw [hs] at h; simp at h

theorem findFrom_isSome_of_infix {pat s : List Char}
    (h : ∃ a b, s = a ++ pat ++ b) : (findFrom pat s).isSome := by
  obtain ⟨a, b, rfl⟩ := h
  induction a with
  | nil =>
    apply findFrom_isSome_of_startsWith
    simp [startsWithCaseless_self_append]
  | cons c a ih =>
    show (findFrom pat (c :: (a ++ pat ++ b))).isSome
    unfold findFrom
    cases hs : startsWithCaseless pat (c :: (a ++ pat ++ b)) with
    | some rest => simp
    | none => exact ih

/-- A line containing the literal traceback header matches the first
`LOG_PATTERNS` entry. -/
theorem substrSearchCI_traceback_of_contains {line : String}
    (h : "Traceback (most recent call last):".data <:+: line.data) :
    substrSearchCI "Traceback (most recent call last)" line = true := by
  obtain ⟨a, b, hs⟩ := h
  have hdata : "Traceback (most recent call last):".data =
      "Traceback (most recent call last)".data ++ [Char.ofNat 58] := by decide
  have hsplit : line.data =
      a ++ "Traceback (most recent call last)".data ++ (Char.ofNat 58 :: b) := by
    rw [← hs, hdata]
    simp [List.append_assoc]
  unfold substrSearchCI
  exact findFrom_isSome_of_infix ⟨a, Char.ofNat 58 :: b, hsplit⟩

/-- A line containing the traceback header and matching no allow-list
pattern is classified by the first `LOG_PATTERNS` entry. -/
theorem scanLine_traceback {allow : List (String → Bool)} {line : String}
    (hcontains : "Traceback (most recent call last):".data <:+: line.data)
    (hallow : ∀ a ∈ allow, a line = false) :
    scanLine allow line = some ("P0", "traceback") := by
  have hany : allow.any (fun a => a line) = false := by
    rw [List.any_eq_false]
    intro a ha
    simp [hallow a ha]
  have ht := substrSearchCI_traceback_of_contains hcontains
  unfold scanLine
  rw [if_neg (by simp [hany])]
  simp only [LOG_PATTERNS, firstMatch]
  rw [if_pos ht]

theorem scanLines_line_number_ge (sid lp : String) (allow : List (String → Bool)) :
    ∀ (ls : List String) (n : Nat), ∀ f ∈ scanLines sid lp allow n ls,
      n ≤ f.line_number := by
  intro ls
  induction ls with
  | nil => intro n f hf; simp [scanLines] at hf
  | cons line rest ih =>
    intro n f hf
    unfold scanLines at hf
    rw [List.mem_append] at hf
    rcases hf with hf | hf
    · cases hsl : scanLine allow line with
      | none => rw [hsl] at hf; simp at hf
      | some p =>
        obtain ⟨sev, name⟩ := p
        rw [hsl] at hf
        rcases List.mem_singleton.1 hf with rfl
        exact le_refl n
    · exact Nat.le_of_succ_le (ih (n + 1) f hf)

/-- The findings attributed to the `i`-th line of a log: none when the
line is suppressed or matches nothing, and exactly one otherwise. -/
theorem scanLines_filter_eq (sid lp : String) (allow : List (String → Bool)) :
    ∀ (ls : List String) (n i : Nat),
      (scanLines sid lp allow n ls).filter (fun f => f.line_number = n + i) =
        (match ls[i]? with
         | none => []
         | some line =>
           match scanLine allow line with
           | some (sev, name) => [⟨sid, lp, n + i, sev, name, rstrip line⟩]
           | none => []) := by
  intro ls
  induction ls with
  | nil => intro n i; simp [scanLines]
  | cons line rest ih =>
    intro n i
    unfold scanLines
    rw [List.filter_append]
    match i with
    | 0 =>
      have htail : (scanLines sid lp allow (n + 1) rest).filter
          (fun f => f.line_number = n + 0) = [] := by
        rw [List.filter_eq_nil_iff]
        intro f hf
        have := scanLines_line_number_ge sid lp allow rest (n + 1) f hf
        simp only [decide_eq_true_eq]
        omega
      rw [htail, List.append_nil, List.getElem?_cons_zero]
      cases hsl : scanLine allow line with
      | none => simp [hsl]
      | some p =>
        obtain ⟨sev, name⟩ := p
        simp [hsl]
    | Nat.succ j =>
      have hhead : (match scanLine allow line with
          | some (sev, name) => [(⟨sid, lp, n, sev, name, rstrip line⟩ : LogFinding)]
          | none => []).filter (fun f : LogFinding => f.line_number = n + (j + 1)) = [] := by
        cases hsl : scanLine allow line with
        | none => simp
        | some p =>
          obtain ⟨sev, name⟩ := p
          simp only [List.filter_cons, List.filter_nil, decide_eq_true_eq]
          rw [if_neg (by omega)]
      rw [hhead, List.nil_append, List.getElem?_cons_succ]
      have harith : n + (j + 1) = (n + 1) + j := by omega
      rw [harith]
      exact ih (n + 1) j

/-- A line matching some allow-list pattern is fully suppressed. -/
theorem scanLine_allowlisted {allow : List (String → Bool)} {line : String}
    (h : ∃ a ∈ allow, a line = true) : scanLine allow line = none := by
  obtain ⟨a, ha, hal⟩ := h
  unfold scanLine
  rw [if_pos (List.any_eq_true.2 ⟨a, ha, hal⟩)]

/-- C9: over an existing stage log, (1) a line containing the literal
`"Traceback (most recent call last):"` and matching no allow-list
pattern contributes exactly one finding, with severity P0 and pattern
code "traceback" (the first matching table entry); (2) a line matching
an allow-list pattern contributes no finding at all; (3) every line
contributes at most one finding. -/
theorem scanLogsForFindings_traceback_spec (stage : StageLog)
    (allow : List (String → Bool)) (hex : stage.logExists = true) :
    (∀ (i : Nat) (line : String), stage.lines[i]? = some line →
      "Traceback (most recent call last):".data <:+: line.data →
      (∀ a ∈ allow, a line = false) →
      ((scanLogsForFindings [stage] allow).filter
          (fun f => f.line_number = 1 + i)) =
        [⟨stage.stage_id, stage.log_path, 1 + i, "P0", "traceback", rstrip line⟩]) ∧
    (∀ (i : Nat) (line : String), stage.lines[i]? = some line →
      (∃ a ∈ allow, a line = true) →
      ((scanLogsForFindings [stage] allow).filter
          (fun f => f.line_number = 1 + i)) = []) ∧
    (∀ j : Nat,
      ((scanLogsForFindings [stage] allow).filter
        (fun f => f.line_number = j)).length ≤ 1) := by
  have hscan : scanLogsForFindings [stage] allow =
      scanLines stage.stage_id stage.log_path allow 1 stage.lines := by
    simp [scanLogsForFindings, scanStage, hex]
  refine ⟨?_, ?_, ?_⟩
  · intro i line hline hcontains hallow
    rw [hscan, scanLines_filter_eq, hline]
    simp [scanLine_traceback hcontains hallow]
  · intro i line hline hmatch
    rw [hscan, scanLines_filter_eq, hline]
    simp [scanLine_allowlisted hmatch]
  · intro j
    rw [hscan]
    rcases Nat.lt_or_ge j 1 with hj | hj
    · have hz : (scanLines stage.stage_id stage.log_path allow 1 stage.lines).filter
          (fun f : LogFinding => f.line_number = j) = [] := by
        rw [List.filter_eq_nil_iff]
        intro f hf
        have := scanLines_line_number_ge stage.stage_id stage.log_path allow
          stage.lines 1 f hf
        simp only [decide_eq_true_eq]
        omega
      rw [hz]
      simp
    · obtain ⟨i2, rfl⟩ : ∃ i2, j = 1 + i2 := ⟨j - 1, by omega⟩
      rw [scanLines_filter_eq]
      cases h2 : stage.lines[i2]? with
      | none => simp
      | some line2 =>
        cases h3 : scanLine allow line2 with
        | none => simp [h3]
        | some p =>
          obtain ⟨sev, name⟩ := p
          simp [h3]

/-- Stage log for the C9 witness: line 2 is the traceback header, line 3
matches the allow-list pattern. -/
def tracebackStage : StageLog :=
  ⟨"04_analysis", "logs/04_analysis.log", true,
   ["loading inputs", "Traceback (most recent call last):",
    "Skipping legacy archive xlsx export"]⟩

/-- Witness for `scanLogsForFindings_traceback_spec` on a concrete
three-line log: the traceback line yields its single P0 finding and the
allow-listed line yields none. -/
theorem scanLogsForFindings_traceback_spec_witness :
    ((scanLogsForFindings [tracebackStage] DEFAULT_ALLOWLIST).filter
        (fun f => f.line_number = 1 + 1)) =
      [⟨"04_analysis", "logs/04_analysis.log", 1 + 1, "P0", "traceback",
        rstrip "Traceback (most recent call last):"⟩] ∧
    ((scanLogsForFindings [tracebackStage] DEFAULT_ALLOWLIST).filter
        (fun f => f.line_number = 1 + 2)) = [] :=
  ⟨(scanLogsForFindings_traceback_spec tracebackStage DEFAULT_ALLOWLIST rfl).1 1
     "Traceback (most recent call last):" (by decide) (by decide) (by decide),
   (scanLogsForFindings_traceback_spec tracebackStage DEFAULT_ALLOWLIST rfl).2.1 2
     "Skipping legacy archive xlsx export" (by decide) (by decide)⟩

end HypercapAudit
